import Mathlib

/-!
Verification of the braiins repository fragment: Stratum V2 header framing
(protocols/stratum/src/v2/framing.rs), the work-engine broadcast receiver
(bosminer/src/work.rs), and the cgminer-api command dispatcher
(protocols/cgminer-api/src/command.rs), shallowly embedded in Lean.
-/

/-! ## Stratum V2 framing (src/open/protocols/stratum/src/v2/framing.rs) -/

/-- All messages recognized by the protocol (enum MessageType, PrimitiveEnum_u8). -/
inductive MessageType where
  | SetupMiningConnection
  | SetupMiningConnectionSuccess
  | SetupMiningConnectionError
  | OpenChannel
  | OpenChannelSuccess
  | OpenChannelError
  | UpdateChannel
  | UpdateChannelError
  | NewMiningJob
  | SetTarget
  | SetNewPrevHash
  | SubmitShares
  | SubmitSharesSuccess
  | SubmitSharesError
  deriving DecidableEq

/-- The u8 discriminant of each message type, as written in the Rust enum. -/
def MessageType.toPrimitive : MessageType → Nat
  | .SetupMiningConnection => 0x00
  | .SetupMiningConnectionSuccess => 0x01
  | .SetupMiningConnectionError => 0x02
  | .OpenChannel => 0x03
  | .OpenChannelSuccess => 0x04
  | .OpenChannelError => 0x05
  | .UpdateChannel => 0x06
  | .UpdateChannelError => 0x07
  | .NewMiningJob => 0x08
  | .SetTarget => 0x09
  | .SetNewPrevHash => 0x0a
  | .SubmitShares => 0x0b
  | .SubmitSharesSuccess => 0x0c
  | .SubmitSharesError => 0x0d

/-- Decoding a u8 discriminant back to a message type (PrimitiveEnum from_primitive);
every byte outside the fourteen known identifiers fails. -/
def MessageType.fromPrimitive : Nat → Option MessageType
  | 0x00 => some .SetupMiningConnection
  | 0x01 => some .SetupMiningConnectionSuccess
  | 0x02 => some .SetupMiningConnectionError
  | 0x03 => some .OpenChannel
  | 0x04 => some .OpenChannelSuccess
  | 0x05 => some .OpenChannelError
  | 0x06 => some .UpdateChannel
  | 0x07 => some .UpdateChannelError
  | 0x08 => some .NewMiningJob
  | 0x09 => some .SetTarget
  | 0x0a => some .SetNewPrevHash
  | 0x0b => some .SubmitShares
  | 0x0c => some .SubmitSharesSuccess
  | 0x0d => some .SubmitSharesError
  | _ => none

/-- Header of the protocol message: 1 byte msg_type, 24-bit msg_length.
The Rust field msg_length has type Integer of u32 over 24 bits; we model the
stored value as a Nat, with validity msg_length less than 2 to the 24. -/
structure Header where
  msg_type : MessageType
  msg_length : Nat
  deriving DecidableEq

def Header.SIZE : Nat := 4

/-- Header::new: asserts msg_length at most 0xffffff ("Message too large").
The failing assertion is modelled as none. -/
def Header.new (msg_type : MessageType) (msg_length : Nat) : Option Header :=
  if msg_length ≤ 0xffffff then some { msg_type := msg_type, msg_length := msg_length }
  else none

/-- Little-endian byte serialization of a value into a fixed number of bytes. -/
def natToLeBytes : Nat → Nat → List Nat
  | 0, _ => []
  | count + 1, n => n % 256 :: natToLeBytes count (n / 256)

/-- Little-endian byte deserialization. -/
def leBytesToNat : List Nat → Nat
  | [] => 0
  | b :: rest => b + 256 * leBytesToNat rest

/-- pack (derived by PackedStruct with lsb endianness): the msg_type byte followed
by the 24-bit msg_length, little endian. -/
def Header.pack (h : Header) : List Nat :=
  h.msg_type.toPrimitive :: natToLeBytes 3 h.msg_length

/-- unpack (PackedStruct unpack_from_slice): requires exactly 4 bytes, decodes the
message type byte (failing on unknown discriminants) and the little-endian
24-bit length. -/
def Header.unpack : List Nat → Option Header
  | [t, b0, b1, b2] =>
    (MessageType.fromPrimitive t).map fun msg_type =>
      { msg_type := msg_type, msg_length := leBytesToNat [b0, b1, b2] }
  | _ => none

/-! ## Work-engine broadcast receiver (src/open/bosminer/src/work.rs) -/

/-- A work engine as seen by the broadcast fabric. The hal::WorkEngine trait is
outside this fragment; the only capability work.rs consumes is is_exhausted,
and engine_id stands for the identity of a concrete engine instance. -/
structure WorkEngine where
  engine_id : Nat
  is_exhausted : Bool
  deriving DecidableEq

/-- The distinguished engine that always reports exhausted (engine::ExhaustedWork),
used as the initial value of the broadcast channel. -/
def ExhaustedWork : WorkEngine := { engine_id := 0, is_exhausted := true }

/-- The view one receiver has of the watch channel: the value currently stored
(inner.get_ref()) plus the finite sequence of updates next() will yield before
it reports end-of-stream because the sender was dropped. -/
structure EngineReceiver where
  current : WorkEngine
  incoming : List WorkEngine

/-- The loop body of EngineReceiver::get_engine: return the engine as soon as it
is not exhausted, otherwise take the next update; none from the stream is
end-of-stream and is returned as none. -/
def get_engine_loop : WorkEngine → List WorkEngine → Option WorkEngine
  | engine, rest =>
    if !engine.is_exhausted then some engine
    else match rest with
      | [] => none
      | next :: rest => get_engine_loop next rest

/-- EngineReceiver::get_engine: provides the most recent work engine as long as it
can provide any work, otherwise waits for a new one. -/
def EngineReceiver.get_engine (r : EngineReceiver) : Option WorkEngine :=
  get_engine_loop r.current r.incoming

/-! ## cgminer API command dispatcher (src/open/protocols/cgminer-api/src/command.rs) -/

/-- Modelled from the spec: JSON-like values (serde_json::Value) carried by requests
and parameters; numbers are modelled as integers, which covers the integer
parameters the commands inspect. -/
inductive Json where
  | null
  | bool (b : Bool)
  | num (n : Int)
  | str (s : String)
  | arr (elems : List Json)
  | obj (fields : List (String × Json))

/-- serde_json Value::get: the value stored under a key of an object. -/
def Json.get (j : Json) (key : String) : Option Json :=
  match j with
  | .obj fields => fields.lookup key
  | _ => none

/-- serde_json Value::as_str. -/
def Json.asStr : Json → Option String
  | .str s => some s
  | _ => none

/-- Modelled from the spec: support::ValueExt::is_i32 (support.rs is not among the
sources); the asc predicate requires a signed 32-bit integer parameter. -/
def Json.is_i32 : Json → Bool
  | .num n => decide (-(2 ^ 31) ≤ n) && decide (n < 2 ^ 31)
  | _ => false

/-- Modelled from the spec: the error codes of response.rs referenced by the
dispatcher (response.rs is not among the sources). -/
inductive ErrorCode where
  | MissingCommand
  | InvalidCommand
  | MissingCheckCmd
  | MissingAscParameter
  | AccessDeniedCmd (name : String)
  deriving DecidableEq

/-- Modelled from the spec: response::Bool, the Y/N flag of the check response. -/
inductive RespBool where
  | Y
  | N
  deriving DecidableEq

/-- Modelled from the spec: response::Version (miner signature, miner version and
api version strings). -/
structure VersionResp where
  signature : String
  miner : String
  api : String
  deriving DecidableEq

/-- Modelled from the spec: response::Check; the source fields are named exists
and access. -/
structure CheckResp where
  exists_ : RespBool
  access : RespBool
  deriving DecidableEq

/-- Modelled from the spec: response::Dispatch, the neutral success-or-error value
a handler returns before envelope wrapping; success bodies produced by host
handlers carry their payload, the built-in version and check bodies are
explicit. -/
inductive Dispatch where
  | host (body : Json)
  | version (v : VersionResp)
  | check (c : CheckResp)
  | error (e : ErrorCode)

/-- dispatch.unwrap_or_else(|error| error.into()): an error becomes an error
response body, never exceptional control flow. -/
def unwrapDispatch : Except ErrorCode Dispatch → Dispatch
  | Except.ok d => d
  | Except.error e => Dispatch.error e

/-- The Handler trait: one coroutine per command, modelled as its (pure) result;
each returns a typed domain response payload or a typed error. -/
structure Handler where
  handle_pools : Except ErrorCode Json
  handle_devs : Except ErrorCode Json
  handle_edevs : Except ErrorCode Json
  handle_summary : Except ErrorCode Json
  handle_config : Except ErrorCode Json
  handle_dev_details : Except ErrorCode Json
  handle_stats : Except ErrorCode Json
  handle_estats : Except ErrorCode Json
  handle_coin : Except ErrorCode Json
  handle_asc_count : Except ErrorCode Json
  handle_asc : Option Json → Except ErrorCode Json
  handle_lcd : Except ErrorCode Json

/-- The four handler kinds of the descriptor table; the async closures built by
the command macro are modelled as their dispatch results. -/
inductive HandlerType where
  | ParameterLess (f : Except ErrorCode Dispatch)
  | Parameter (f : Option Json → Except ErrorCode Dispatch)
  | Version
  | Check

/-- HandlerType::has_parameters, used by the batch-mode guard. -/
def HandlerType.has_parameters : HandlerType → Bool
  | .ParameterLess _ => false
  | .Parameter _ => true
  | .Version => false
  | .Check => true

/-- The optional per-command parameter-check predicate. -/
def ParameterCheckHandler : Type :=
  String → Option Json → Except ErrorCode Unit

/-- Describes an individual command: handler kind plus optional parameter check. -/
structure Descriptor where
  handler : HandlerType
  parameter_check : Option ParameterCheckHandler

/-- Descriptor::new; the name argument is ignored, as in the source. -/
def Descriptor.new (_name : String) (handler : HandlerType)
    (parameter_check : Option ParameterCheckHandler) : Descriptor :=
  { handler := handler, parameter_check := parameter_check }

/-- Descriptor::has_parameters. -/
def Descriptor.has_parameters (d : Descriptor) : Bool :=
  d.handler.has_parameters

/-- Modelled from the spec: the conversion of a descriptor-table lookup result into
a response::Bool (a known command maps to Y, an unknown one to N). -/
def RespBool.fromLookup : Option Descriptor → RespBool
  | some _ => RespBool.Y
  | none => RespBool.N

/-- List of all supported commands. -/
def POOLS : String := "pools"
def DEVS : String := "devs"
def EDEVS : String := "edevs"
def SUMMARY : String := "summary"
def VERSION : String := "version"
def CONFIG : String := "config"
def DEVDETAILS : String := "devdetails"
def STATS : String := "stats"
def ESTATS : String := "estats"
def CHECK : String := "check"
def COIN : String := "coin"
def ASC_COUNT : String := "asccount"
def ASC : String := "asc"
def LCD : String := "lcd"

/-- Modelled from the spec: crate::API_VERSION, the api string of the version
response (its concrete value lies outside the sources). -/
def API_VERSION : String := "API_VERSION"

/-- Receiver::check_asc: the parameter must be present and be a signed 32-bit
integer, otherwise MissingAscParameter. -/
def check_asc (_command : String) (parameter : Option Json) : Except ErrorCode Unit :=
  match parameter with
  | some value =>
    if value.is_i32 then Except.ok ()
    else Except.error ErrorCode.MissingAscParameter
  | none => Except.error ErrorCode.MissingAscParameter

/-- The descriptor table built by Receiver::new: the twelve generic commands of the
commands macro, plus the built-in version and check commands. -/
def commandTable (handler : Handler) : String → Option Descriptor := fun name =>
  if name = POOLS then
    some (Descriptor.new POOLS
      (HandlerType.ParameterLess (Except.map Dispatch.host handler.handle_pools)) none)
  else if name = DEVS then
    some (Descriptor.new DEVS
      (HandlerType.ParameterLess (Except.map Dispatch.host handler.handle_devs)) none)
  else if name = EDEVS then
    some (Descriptor.new EDEVS
      (HandlerType.ParameterLess (Except.map Dispatch.host handler.handle_edevs)) none)
  else if name = SUMMARY then
    some (Descriptor.new SUMMARY
      (HandlerType.ParameterLess (Except.map Dispatch.host handler.handle_summary)) none)
  else if name = CONFIG then
    some (Descriptor.new CONFIG
      (HandlerType.ParameterLess (Except.map Dispatch.host handler.handle_config)) none)
  else if name = DEVDETAILS then
    some (Descriptor.new DEVDETAILS
      (HandlerType.ParameterLess (Except.map Dispatch.host handler.handle_dev_details)) none)
  else if name = STATS then
    some (Descriptor.new STATS
      (HandlerType.ParameterLess (Except.map Dispatch.host handler.handle_stats)) none)
  else if name = ESTATS then
    some (Descriptor.new ESTATS
      (HandlerType.ParameterLess (Except.map Dispatch.host handler.handle_estats)) none)
  else if name = COIN then
    some (Descriptor.new COIN
      (HandlerType.ParameterLess (Except.map Dispatch.host handler.handle_coin)) none)
  else if name = ASC_COUNT then
    some (Descriptor.new ASC_COUNT
      (HandlerType.ParameterLess (Except.map Dispatch.host handler.handle_asc_count)) none)
  else if name = ASC then
    some (Descriptor.new ASC
      (HandlerType.Parameter fun parameter =>
        Except.map Dispatch.host (handler.handle_asc parameter))
      (some check_asc))
  else if name = LCD then
    some (Descriptor.new LCD
      (HandlerType.ParameterLess (Except.map Dispatch.host handler.handle_lcd)) none)
  else if name = VERSION then
    some (Descriptor.new VERSION HandlerType.Version none)
  else if name = CHECK then
    some (Descriptor.new CHECK HandlerType.Check none)
  else none

/-- The API receiver: its descriptor table, miner signature and version, the
description string, and the injected clock value that T::when() reports. -/
structure Receiver where
  commands : String → Option Descriptor
  miner_signature : String
  miner_version : String
  description : String
  when : Nat

/-- Receiver::new: builds the command table and the description
"{signature} {version}". -/
def Receiver.new (handler : Handler) (miner_signature miner_version : String)
    (when : Nat) : Receiver :=
  { commands := commandTable handler
    miner_signature := miner_signature
    miner_version := miner_version
    description := miner_signature ++ " " ++ miner_version
    when := when }

/-- Receiver::handle_version: miner signature, miner version and API version. -/
def Receiver.handle_version (r : Receiver) : Except ErrorCode VersionResp :=
  Except.ok { signature := r.miner_signature, miner := r.miner_version, api := API_VERSION }

/-- Receiver::handle_check: an absent parameter is MissingCheckCmd; a string
parameter is looked up in the descriptor table; any other parameter yields N;
exists and access both carry the result. -/
def Receiver.handle_check (r : Receiver) (parameter : Option Json) :
    Except ErrorCode CheckResp :=
  match parameter with
  | none => Except.error ErrorCode.MissingCheckCmd
  | some command =>
    let result := match command with
      | Json.str s => RespBool.fromLookup (r.commands s)
      | _ => RespBool.N
    Except.ok { exists_ := result, access := result }

/-- Receiver::handle_single: look the command up (InvalidCommand when unknown),
reject commands with parameters in batched mode (AccessDeniedCmd), run the
parameter check when present, dispatch on the handler kind, and turn any
error into an error response body. -/
def Receiver.handle_single (r : Receiver) (command : String) (parameter : Option Json)
    (multi_command : Bool) : Dispatch :=
  unwrapDispatch
    (match r.commands command with
     | some descriptor =>
       if multi_command && descriptor.has_parameters then
         Except.error (ErrorCode.AccessDeniedCmd command)
       else
         match (match descriptor.parameter_check with
                | none => Except.ok ()
                | some check => check command parameter) with
         | Except.ok _ =>
           (match descriptor.handler with
            | HandlerType.ParameterLess handle => handle
            | HandlerType.Parameter handle => handle parameter
            | HandlerType.Version => Except.map Dispatch.version r.handle_version
            | HandlerType.Check => Except.map Dispatch.check (r.handle_check parameter))
         | Except.error response => Except.error response
     | none => Except.error ErrorCode.InvalidCommand)

/-- Modelled from the spec: the response envelope of support.rs — the dispatch body
plus the when timestamp and the miner description. -/
structure Response where
  body : Dispatch
  when : Nat
  description : String

/-- Dispatch::into_response. -/
def Dispatch.into_response (d : Dispatch) (when : Nat) (description : String) : Response :=
  { body := d, when := when, description := description }

/-- Modelled from the spec: support::ResponseType; a multi response is an
insertion-ordered association of command name to individual response. -/
inductive ResponseType where
  | Single (r : Response)
  | Multi (rs : List (String × Response))

/-- Receiver::get_single_response. -/
def Receiver.get_single_response (r : Receiver) (dispatch : Dispatch) : ResponseType :=
  ResponseType.Single (dispatch.into_response r.when r.description)

/-- Rust str::split on a single separator character, over the character list of a
string: empty pieces between adjacent separators and at both ends are kept,
exactly as Rust produces them. -/
def splitChars (sep : Char) : List Char → List (List Char)
  | [] => [[]]
  | c :: rest =>
    match splitChars sep rest with
    | [] => [[]]
    | piece :: pieces =>
      if c == sep then [] :: piece :: pieces
      else (c :: piece) :: pieces

/-- Rust str::split packaged on String. -/
def rustSplit (s : String) (sep : Char) : List String :=
  (splitChars sep s.data).map fun cs => String.mk cs

/-- Holds an incoming API command. -/
structure Request where
  value : Json

/-- Receiver::handle: read the command string (MissingCommand when absent or not a
string), split it on the plus separator discarding empty pieces, then answer
InvalidCommand for an empty list, a single response for exactly one command
(the source passes the original unsplit string to handle_single here), and an
input-ordered multi response keyed by command name otherwise. -/
def Receiver.handle (r : Receiver) (command_request : Request) : ResponseType :=
  match (command_request.value.get "command").bind Json.asStr with
  | none => r.get_single_response (Dispatch.error ErrorCode.MissingCommand)
  | some command =>
    let commands := (rustSplit command '+').filter fun c => c.length > 0
    let parameter := command_request.value.get "parameter"
    if commands.length = 0 then
      r.get_single_response (Dispatch.error ErrorCode.InvalidCommand)
    else if commands.length = 1 then
      r.get_single_response (r.handle_single command parameter false)
    else
      ResponseType.Multi (commands.map fun c =>
        (c, (r.handle_single c parameter true).into_response r.when r.description))

/-- A concrete handler instance used to evaluate the dispatcher on closed inputs. -/
def sampleHandler : Handler :=
  { handle_pools := Except.ok (Json.str "pools_body")
    handle_devs := Except.ok (Json.str "devs_body")
    handle_edevs := Except.ok (Json.str "edevs_body")
    handle_summary := Except.ok (Json.str "summary_body")
    handle_config := Except.ok (Json.str "config_body")
    handle_dev_details := Except.ok (Json.str "devdetails_body")
    handle_stats := Except.ok (Json.str "stats_body")
    handle_estats := Except.ok (Json.str "estats_body")
    handle_coin := Except.ok (Json.str "coin_body")
    handle_asc_count := Except.ok (Json.str "asccount_body")
    handle_asc := fun parameter => Except.ok (Json.arr parameter.toList)
    handle_lcd := Except.ok (Json.str "lcd_body") }

/-! ## Theorems: framing -/

theorem MessageType.fromPrimitive_toPrimitive (t : MessageType) :
    MessageType.fromPrimitive t.toPrimitive = some t := by
  cases t <;> rfl

theorem MessageType.fromPrimitive_eq_none (n : Nat) (h : 13 < n) :
    MessageType.fromPrimitive n = none := by
  obtain ⟨k, rfl⟩ : ∃ k, n = k + 14 := ⟨n - 14, by omega⟩
  rfl

theorem MessageType.fromPrimitive_known (n : Nat) (h : n < 14) :
    (MessageType.fromPrimitive n).map MessageType.toPrimitive = some n := by
  interval_cases n <;> rfl

/-- C4: for every valid header h (known msg_type, msg_length at most 2^24 - 1),
unpacking the 4 bytes produced by packing h yields h back. -/
theorem Header.unpack_pack (h : Header) (hv : h.msg_length ≤ 0xffffff) :
    Header.unpack (Header.pack h) = some h := by
  obtain ⟨t, n⟩ := h
  have hn : n ≤ 0xffffff := hv
  simp only [Header.pack, Header.unpack, natToLeBytes, leBytesToNat,
    MessageType.fromPrimitive_toPrimitive, Option.map_some', Option.some.injEq,
    Header.mk.injEq, true_and]
  omega

/-- C4 witness: the round trip evaluated at a concrete valid header. -/
theorem Header.unpack_pack_witness :
    Header.unpack (Header.pack { msg_type := .NewMiningJob, msg_length := 0xaabbcc }) =
      some { msg_type := .NewMiningJob, msg_length := 0xaabbcc } :=
  Header.unpack_pack { msg_type := .NewMiningJob, msg_length := 0xaabbcc } (by decide)

/-- C5: for every 4-byte input whose first byte is a known message-type identifier
(0x00 through 0x0d), unpack succeeds and re-packing the result reproduces the
input exactly. -/
theorem Header.pack_unpack (b0 b1 b2 b3 : Nat) (h0 : b0 ≤ 0x0d)
    (h1 : b1 < 256) (h2 : b2 < 256) (h3 : b3 < 256) :
    (Header.unpack [b0, b1, b2, b3]).map Header.pack = some [b0, b1, b2, b3] := by
  have hk := MessageType.fromPrimitive_known b0 (by omega)
  cases hm : MessageType.fromPrimitive b0 with
  | none => rw [hm] at hk; simp at hk
  | some t =>
    rw [hm] at hk
    simp only [Option.map_some', Option.some.injEq] at hk
    simp only [Header.unpack, hm, Option.map_some', Option.some.injEq, Header.pack,
      natToLeBytes, leBytesToNat, hk, List.cons.injEq, and_true, true_and]
    omega

/-- C5 witness: the byte-level round trip evaluated at a concrete known input. -/
theorem Header.pack_unpack_witness :
    (Header.unpack [0x0b, 0x01, 0x02, 0x03]).map Header.pack =
      some [0x0b, 0x01, 0x02, 0x03] :=
  Header.pack_unpack 0x0b 0x01 0x02 0x03 (by decide) (by decide) (by decide) (by decide)

/-- C6: pack emits exactly 4 bytes laid out as the msg_type byte followed by the
24-bit length in little-endian order, and packing
Header::new(SetupMiningConnection, 0xaabbcc) gives [0x00, 0xcc, 0xbb, 0xaa]. -/
theorem Header.pack_layout (h : Header) :
    Header.pack h = [h.msg_type.toPrimitive, h.msg_length % 256,
      h.msg_length / 256 % 256, h.msg_length / 65536 % 256] ∧
    (Header.new MessageType.SetupMiningConnection 0xaabbcc).map Header.pack =
      some [0x00, 0xcc, 0xbb, 0xaa] := by
  constructor
  · simp only [Header.pack, natToLeBytes, List.cons.injEq, and_true, true_and]
    omega
  · rfl

/-- C7: unpacking any 4-byte input whose first byte is outside the fourteen known
identifiers fails, in particular the test fixture [0xff, 0xaa, 0xbb, 0xcc]. -/
theorem Header.unpack_unknown (b0 b1 b2 b3 : Nat) (h : 0x0d < b0) :
    Header.unpack [b0, b1, b2, b3] = none ∧
    Header.unpack [0xff, 0xaa, 0xbb, 0xcc] = none := by
  refine ⟨?_, rfl⟩
  simp [Header.unpack, MessageType.fromPrimitive_eq_none b0 h]

/-- C7 witness: the decode failure evaluated at the concrete fixture bytes. -/
theorem Header.unpack_unknown_witness :
    Header.unpack [0xff, 0xaa, 0xbb, 0xcc] = none ∧
    Header.unpack [0x0e, 0x00, 0x00, 0x00] = none :=
  ⟨(Header.unpack_unknown 0xff 0xaa 0xbb 0xcc (by decide)).2,
   (Header.unpack_unknown 0x0e 0x00 0x00 0x00 (by decide)).1⟩

/-- C8: Header::new rejects every msg_length above 2^24 - 1 (the "Message too
large" assertion fails) and accepts every msg_length at most 2^24 - 1,
returning a header carrying that length. -/
theorem Header.new_spec (t : MessageType) (len : Nat) :
    (0xffffff < len → Header.new t len = none) ∧
    (len ≤ 0xffffff → Header.new t len = some { msg_type := t, msg_length := len }) := by
  constructor
  · intro hgt
    simp [Header.new, Nat.not_le.mpr hgt]
  · intro hle
    simp [Header.new, hle]

/-- C8 witness: the assertion boundary evaluated at concrete lengths. -/
theorem Header.new_spec_witness :
    Header.new MessageType.SetTarget 0x1000000 = none ∧
    Header.new MessageType.SetTarget 0xffffff =
      some { msg_type := MessageType.SetTarget, msg_length := 0xffffff } :=
  ⟨(Header.new_spec MessageType.SetTarget 0x1000000).1 (by decide),
   (Header.new_spec MessageType.SetTarget 0xffffff).2 (by decide)⟩

/-! ## Theorems: work-engine receiver -/

/-- C2: get_engine returns either some engine that is not exhausted, or none; and
none is returned only at end-of-stream, after the current engine and every
engine remaining in the stream were exhausted (the watch stream yields none
exactly when the sender was dropped). -/
theorem EngineReceiver.get_engine_spec (r : EngineReceiver) :
    (∀ e, r.get_engine = some e → e.is_exhausted = false) ∧
    (r.get_engine = none →
      r.current.is_exhausted = true ∧ ∀ e ∈ r.incoming, e.is_exhausted = true) := by
  obtain ⟨current, incoming⟩ := r
  show (∀ e, get_engine_loop current incoming = some e → e.is_exhausted = false) ∧
    (get_engine_loop current incoming = none →
      current.is_exhausted = true ∧ ∀ e ∈ incoming, e.is_exhausted = true)
  induction incoming generalizing current with
  | nil =>
    constructor
    · intro e he
      by_cases hc : current.is_exhausted
      · simp [get_engine_loop, hc] at he
      · simp only [get_engine_loop, hc, Bool.not_false, if_true, Option.some.injEq] at he
        subst he
        exact Bool.eq_false_iff.mpr hc
    · intro hn
      by_cases hc : current.is_exhausted
      · exact ⟨hc, by simp⟩
      · simp [get_engine_loop, hc] at hn
  | cons next rest ih =>
    constructor
    · intro e he
      by_cases hc : current.is_exhausted
      · simp only [get_engine_loop, hc, Bool.not_true, if_false] at he
        exact (ih next).1 e he
      · simp only [get_engine_loop, hc, Bool.not_false, if_true, Option.some.injEq] at he
        subst he
        exact Bool.eq_false_iff.mpr hc
    · intro hn
      by_cases hc : current.is_exhausted
      · simp only [get_engine_loop, hc, Bool.not_true, if_false] at hn
        obtain ⟨hnext, hrest⟩ := (ih next).2 hn
        refine ⟨hc, ?_⟩
        intro e he
        rcases List.mem_cons.mp he with rfl | hmem
        · exact hnext
        · exact hrest e hmem
      · simp [get_engine_loop, hc] at hn

/-- C2 witness: a receiver whose current engine is exhausted and whose stream holds
one live engine returns that engine, and the theorem certifies it is not
exhausted. -/
theorem EngineReceiver.get_engine_spec_witness :
    EngineReceiver.get_engine
        { current := ExhaustedWork, incoming := [{ engine_id := 1, is_exhausted := false }] } =
      some { engine_id := 1, is_exhausted := false } ∧
    WorkEngine.is_exhausted { engine_id := 1, is_exhausted := false } = false :=
  ⟨rfl,
   (EngineReceiver.get_engine_spec
      { current := ExhaustedWork,
        incoming := [{ engine_id := 1, is_exhausted := false }] }).1
     { engine_id := 1, is_exhausted := false } rfl⟩

/-! ## Theorems: command dispatcher -/

theorem handle_single_asc_eq (handler : Handler) (sig ver : String) (w : Nat)
    (parameter : Option Json) :
    (Receiver.new handler sig ver w).handle_single ASC parameter false =
      unwrapDispatch
        (match check_asc ASC parameter with
         | Except.ok _ => Except.map Dispatch.host (handler.handle_asc parameter)
         | Except.error response => Except.error response) := rfl

/-- C9: dispatching the asc command runs the i32 parameter check: when the
parameter is absent or is not a signed 32-bit integer, the dispatch result is
the MissingAscParameter error for every handler (handle_asc is never
consulted); when the parameter is an i32, handle_asc receives exactly that
parameter and its result is the dispatch. -/
theorem Receiver.asc_dispatch (handler : Handler) (sig ver : String) (w : Nat)
    (parameter : Option Json) :
    ((∀ p, parameter = some p → p.is_i32 = false) →
      (Receiver.new handler sig ver w).handle_single ASC parameter false =
        Dispatch.error ErrorCode.MissingAscParameter) ∧
    (∀ p, parameter = some p → p.is_i32 = true →
      (Receiver.new handler sig ver w).handle_single ASC parameter false =
        unwrapDispatch (Except.map Dispatch.host (handler.handle_asc parameter))) := by
  constructor
  · intro hbad
    rw [handle_single_asc_eq]
    cases parameter with
    | none => rfl
    | some p =>
      have hp := hbad p rfl
      simp only [check_asc, hp, if_false]
      rfl
  · intro p hp hi
    subst hp
    rw [handle_single_asc_eq]
    simp only [check_asc, hi, if_true]

/-- C9 witness: with no parameter the dispatch is the MissingAscParameter error,
and with the integer parameter 3 the handle_asc result of the sample handler
(the parameter echoed back) is the dispatch. -/
theorem Receiver.asc_dispatch_witness :
    (Receiver.new sampleHandler "sig" "ver" 7).handle_single ASC none false =
      Dispatch.error ErrorCode.MissingAscParameter ∧
    (Receiver.new sampleHandler "sig" "ver" 7).handle_single ASC
        (some (Json.num 3)) false =
      Dispatch.host (Json.arr [Json.num 3]) :=
  ⟨(Receiver.asc_dispatch sampleHandler "sig" "ver" 7 none).1
      (fun p hp => nomatch hp),
   ((Receiver.asc_dispatch sampleHandler "sig" "ver" 7 (some (Json.num 3))).2
      (Json.num 3) rfl (by decide)).trans rfl⟩

/-- C3: for every batched request (two or more commands after splitting on the
plus separator), handle emits the per-command responses keyed by command name
in the input order of the batch, each slot holding the multi-mode dispatch of
its command; every known command whose descriptor has parameters yields the
AccessDeniedCmd error carrying its name, and every other known command yields
exactly its normal (single-mode) dispatch. -/
theorem Receiver.handle_multi (handler : Handler) (sig ver : String) (w : Nat)
    (req : Request) (command : String)
    (hc : (req.value.get "command").bind Json.asStr = some command)
    (hlen : 2 ≤ ((rustSplit command '+').filter fun c => c.length > 0).length) :
    (Receiver.new handler sig ver w).handle req =
      ResponseType.Multi (((rustSplit command '+').filter fun c => c.length > 0).map
        fun c => (c, ((Receiver.new handler sig ver w).handle_single c
          (req.value.get "parameter") true).into_response
            (Receiver.new handler sig ver w).when
            (Receiver.new handler sig ver w).description)) ∧
    (∀ c d, (Receiver.new handler sig ver w).commands c = some d →
      (d.has_parameters = true →
        (Receiver.new handler sig ver w).handle_single c (req.value.get "parameter") true =
          Dispatch.error (ErrorCode.AccessDeniedCmd c)) ∧
      (d.has_parameters = false →
        (Receiver.new handler sig ver w).handle_single c (req.value.get "parameter") true =
          (Receiver.new handler sig ver w).handle_single c
            (req.value.get "parameter") false)) := by
  constructor
  · have h0 : ¬ ((rustSplit command '+').filter fun c => c.length > 0).length = 0 := by
      omega
    have h1 : ¬ ((rustSplit command '+').filter fun c => c.length > 0).length = 1 := by
      omega
    simp only [Receiver.handle, hc, h0, h1, if_false, ite_false]
  · intro c d hd
    constructor
    · intro hp
      simp only [Receiver.handle_single, hd, hp, Bool.true_and, if_true, unwrapDispatch]
    · intro hp
      simp only [Receiver.handle_single, hd, hp, Bool.and_false, Bool.true_and,
        Bool.false_and, if_false]

/-- C3 witness: the batched request pools+asc with parameter 3 produces, in input
order, the normal pools response and the AccessDeniedCmd error for asc. -/
theorem Receiver.handle_multi_witness :
    (Receiver.new sampleHandler "sig" "ver" 7).handle
        { value := Json.obj [("command", Json.str "pools+asc"), ("parameter", Json.num 3)] } =
      ResponseType.Multi (((rustSplit "pools+asc" '+').filter fun c => c.length > 0).map
        fun c => (c, ((Receiver.new sampleHandler "sig" "ver" 7).handle_single c
          (some (Json.num 3)) true).into_response 7 "sig ver")) ∧
    (Receiver.new sampleHandler "sig" "ver" 7).handle
        { value := Json.obj [("command", Json.str "pools+asc"), ("parameter", Json.num 3)] } =
      ResponseType.Multi
        [("pools", { body := Dispatch.host (Json.str "pools_body"),
                     when := 7, description := "sig ver" }),
         ("asc", { body := Dispatch.error (ErrorCode.AccessDeniedCmd "asc"),
                   when := 7, description := "sig ver" })] :=
  ⟨(Receiver.handle_multi sampleHandler "sig" "ver" 7
      { value := Json.obj [("command", Json.str "pools+asc"), ("parameter", Json.num 3)] }
      "pools+asc" rfl (by decide)).1,
   rfl⟩

/-- C1 counterexample: for the request whose command field is "version+" the split
yields exactly the one command "version", yet handle answers InvalidCommand —
not the single-response wrap of handle_single on the split command "version",
because the source passes the original unsplit string to handle_single. -/
theorem Receiver.handle_unsplit_counterexample :
    ((rustSplit "version+" '+').filter fun c => c.length > 0) = ["version"] ∧
    (Receiver.new sampleHandler "sig" "ver" 7).handle
        { value := Json.obj [("command", Json.str "version+")] } =
      ResponseType.Single { body := Dispatch.error ErrorCode.InvalidCommand,
                            when := 7, description := "sig ver" } ∧
    (Receiver.new sampleHandler "sig" "ver" 7).get_single_response
        ((Receiver.new sampleHandler "sig" "ver" 7).handle_single "version"
          ((Json.obj [("command", Json.str "version+")]).get "parameter") false) =
      ResponseType.Single
        { body := Dispatch.version { signature := "sig", miner := "ver", api := API_VERSION },
          when := 7, description := "sig ver" } ∧
    (Receiver.new sampleHandler "sig" "ver" 7).handle
        { value := Json.obj [("command", Json.str "version+")] } ≠
      (Receiver.new sampleHandler "sig" "ver" 7).get_single_response
        ((Receiver.new sampleHandler "sig" "ver" 7).handle_single "version"
          ((Json.obj [("command", Json.str "version+")]).get "parameter") false) := by
  refine ⟨rfl, rfl, rfl, ?_⟩
  intro h
  have h2 : ResponseType.Single
        { body := Dispatch.error ErrorCode.InvalidCommand,
          when := 7, description := "sig ver" } =
      ResponseType.Single
        { body := Dispatch.version { signature := "sig", miner := "ver", api := API_VERSION },
          when := 7, description := "sig ver" } := h
  simp only [ResponseType.Single.injEq, Response.mk.injEq] at h2
  exact Dispatch.noConfusion h2.1

/-- C1 (amended): for every request whose command field is a string that, after
splitting on the plus separator and discarding empty pieces, yields exactly one
command name, handle runs handle_single with multi=false on the original
unsplit command string — which coincides with the single split command
whenever the string contains no plus separator — and wraps the result as a
single response. -/
theorem Receiver.handle_single_command (handler : Handler) (sig ver : String) (w : Nat)
    (req : Request) (command : String)
    (hc : (req.value.get "command").bind Json.asStr = some command)
    (hlen : ((rustSplit command '+').filter fun c => c.length > 0).length = 1) :
    (Receiver.new handler sig ver w).handle req =
      (Receiver.new handler sig ver w).get_single_response
        ((Receiver.new handler sig ver w).handle_single command
          (req.value.get "parameter") false) := by
  have h0 : ¬ ((rustSplit command '+').filter fun c => c.length > 0).length = 0 := by
    omega
  simp only [Receiver.handle, hc, h0, hlen, if_false, ite_false, if_true, ite_true]
  norm_num

/-- C1 witness: the single-command request version is answered by wrapping
handle_single on "version" as a single response, carrying the version body. -/
theorem Receiver.handle_single_command_witness :
    (Receiver.new sampleHandler "sig" "ver" 7).handle
        { value := Json.obj [("command", Json.str "version")] } =
      (Receiver.new sampleHandler "sig" "ver" 7).get_single_response
        ((Receiver.new sampleHandler "sig" "ver" 7).handle_single "version" none false) ∧
    (Receiver.new sampleHandler "sig" "ver" 7).handle
        { value := Json.obj [("command", Json.str "version")] } =
      ResponseType.Single
        { body := Dispatch.version { signature := "sig", miner := "ver", api := API_VERSION },
          when := 7, description := "sig ver" } :=
  ⟨Receiver.handle_single_command sampleHandler "sig" "ver" 7
      { value := Json.obj [("command", Json.str "version")] } "version" rfl (by decide),
   rfl⟩

/-- C10: handle_check succeeds with a check response whose exists and access fields
are both N whenever the parameter is present but is not a JSON string, and the
MissingCheckCmd error is returned exactly when the parameter is absent. -/
theorem Receiver.handle_check_spec (handler : Handler) (sig ver : String) (w : Nat)
    (parameter : Option Json) :
    (∀ p, parameter = some p → p.asStr = none →
      (Receiver.new handler sig ver w).handle_check parameter =
        Except.ok { exists_ := RespBool.N, access := RespBool.N }) ∧
    ((Receiver.new handler sig ver w).handle_check parameter =
        Except.error ErrorCode.MissingCheckCmd ↔ parameter = none) := by
  constructor
  · intro p hp hs
    subst hp
    cases p <;> simp_all [Receiver.handle_check, Json.asStr]
  · constructor
    · intro h
      cases parameter with
      | none => rfl
      | some p =>
        cases p <;> simp [Receiver.handle_check] at h
    · intro h
      subst h
      rfl

/-- C10 witness: an integer check parameter yields exists N and access N, while an
absent parameter yields the MissingCheckCmd error. -/
theorem Receiver.handle_check_spec_witness :
    (Receiver.new sampleHandler "sig" "ver" 7).handle_check (some (Json.num 5)) =
      Except.ok { exists_ := RespBool.N, access := RespBool.N } ∧
    (Receiver.new sampleHandler "sig" "ver" 7).handle_check none =
      Except.error ErrorCode.MissingCheckCmd :=
  ⟨(Receiver.handle_check_spec sampleHandler "sig" "ver" 7 (some (Json.num 5))).1
      (Json.num 5) rfl rfl,
   (Receiver.handle_check_spec sampleHandler "sig" "ver" 7 none).2.mpr rfl⟩
